import Mathlib

/-!
Verification of the uni-hedge-core rebalancing bot.

This file shallowly embeds the decision logic of the repository:

* the dynamic range calculator of `executeFullRebalance`
  (src/src/actions.ts, lines 458-522): volatility width, RSI skew,
  tick-diff computation and boundary sanitation;
* the atomic exit operation `atomicExitPosition` (src/src/actions.ts 72-133);
* the portfolio rebalance swap `rebalancePortfolio` (src/src/actions.ts 135-272);
* the staged rebalance sequence `executeFullRebalance` (src/src/actions.ts 359-538);
* the hedge manager `checkHealthAndPanic` / `panicExitAll` / `decreaseShort`
  (src/src/hedge.ts);
* the block listener of the control loop (src/index.ts 184-244).

Machine numbers are embedded as `Int` / `Nat` / `Rat`.  JavaScript
`Math.floor(a / b) * b` on integer `a` with positive integer `b` is exactly
floor division, which for a positive divisor coincides with Lean's `Int`
division `/` (E-rounding); `Math.ceil` is embedded through negation.
External calls (RPC reads, transactions, market data) are embedded as
explicit outcome parameters, and effectful steps are recorded in event
traces so that ordering and absence of calls are provable.
-/

namespace UniHedge

/-! ## Range calculator (src/src/actions.ts, executeFullRebalance lines 452-522) -/

/-- Global tick lower bound, `const MIN_TICK = -887272` (actions.ts:471). -/
def MIN_TICK : ℤ := -887272

/-- Global tick upper bound, `const MAX_TICK = 887272` (actions.ts:472). -/
def MAX_TICK : ℤ := 887272

/-- JavaScript `Math.floor(x / ts) * ts` for integer `x` and positive integer
`ts`: round `x` down to a multiple of the tick spacing. -/
def floorToSpacing (x ts : ℤ) : ℤ := x / ts * ts

/-- JavaScript `Math.ceil(x / ts) * ts` for integer `x` and positive integer
`ts`: round `x` up to a multiple of the tick spacing (actions.ts:511). -/
def ceilToSpacing (x ts : ℤ) : ℤ := -(-x / ts) * ts

/-- The raw lower tick, `Math.floor((newCurrentTick - lowerTickDiff) / tickSpace) * tickSpace`
(actions.ts:505-506). -/
def tickLowerRaw (ts t ld : ℤ) : ℤ := floorToSpacing (t - ld) ts

/-- The raw upper tick, `Math.floor((newCurrentTick + upperTickDiff) / tickSpace) * tickSpace`
(actions.ts:507-508). -/
def tickUpperRaw (ts t ud : ℤ) : ℤ := floorToSpacing (t + ud) ts

/-- Lower clamp, `if (tickLower < MIN_TICK) tickLower = Math.ceil(MIN_TICK / tickSpace) * tickSpace`
(actions.ts:510-511). -/
def clampLower (ts l : ℤ) : ℤ :=
  if l < MIN_TICK then ceilToSpacing MIN_TICK ts else l

/-- Upper clamp, `if (tickUpper > MAX_TICK) tickUpper = Math.floor(MAX_TICK / tickSpace) * tickSpace`
(actions.ts:512-513). -/
def clampUpper (ts u : ℤ) : ℤ :=
  if u > MAX_TICK then floorToSpacing MAX_TICK ts else u

/-- Order repair, `if (tickLower >= tickUpper) { tickUpper = tickLower + tickSpace }`
(actions.ts:515-517). -/
def forceOrder (ts l u : ℤ) : ℤ := if l ≥ u then l + ts else u

/-- Final overflow repair (actions.ts:519-522):
`if (tickUpper > MAX_TICK) { tickUpper = Math.floor(MAX_TICK / tickSpace) * tickSpace; tickLower = tickUpper - tickSpace; }`. -/
def finalClamp (ts l u : ℤ) : ℤ × ℤ :=
  if u > MAX_TICK then
    (floorToSpacing MAX_TICK ts - ts, floorToSpacing MAX_TICK ts)
  else (l, u)

/-- Boundary sanitation of the computed tick range, actions.ts:505-522, as a
function of the tick spacing, the current tick and the two tick diffs. -/
def sanitizeRange (ts t ld ud : ℤ) : ℤ × ℤ :=
  finalClamp ts (clampLower ts (tickLowerRaw ts t ld))
    (forceOrder ts (clampLower ts (tickLowerRaw ts t ld))
      (clampUpper ts (tickUpperRaw ts t ud)))

/-- Volatility percentage, `const volPercent = (atr / currentPrice) * 100`
(actions.ts:458). -/
def volPercent (atr price : ℚ) : ℚ := atr / price * 100

/-- Raw width, `let dynamicWidth = Math.floor(volPercent * 100 * ATR_SAFETY_FACTOR)`
(actions.ts:460). -/
def dynamicWidth (atr price sf : ℚ) : ℤ := ⌊volPercent atr price * 100 * sf⌋

/-- Clamped radius, `const WIDTH = Math.max(500, Math.min(dynamicWidth, 4000))`
(actions.ts:466). -/
def rangeWidth (atr price sf : ℚ) : ℤ := max 500 (min (dynamicWidth atr price sf) 4000)

/-- Base skew from the 4h RSI (actions.ts:475-488): `0.6` above 60, `0.4`
below 40, otherwise `0.5`. -/
def baseSkew (rsi4h : ℚ) : ℚ :=
  if rsi4h > 60 then 6/10 else if rsi4h < 40 then 4/10 else 5/10

/-- Dampened skew from the 15m RSI (actions.ts:492-498): a bullish skew is
pulled to `0.55` when the short horizon is overbought, a bearish skew to
`0.45` when it is oversold. -/
def skewOf (rsi4h rsi15m : ℚ) : ℚ :=
  if baseSkew rsi4h > 5/10 ∧ rsi15m > 70 then 55/100
  else if baseSkew rsi4h < 5/10 ∧ rsi15m < 30 then 45/100
  else baseSkew rsi4h

/-- Upper tick diff, `Math.floor(totalSpan * skew)` with `totalSpan = WIDTH * 2`
(actions.ts:500-502). -/
def upperTickDiff (w : ℤ) (skew : ℚ) : ℤ := ⌊((w * 2 : ℤ) : ℚ) * skew⌋

/-- Lower tick diff, `Math.floor(totalSpan * (1 - skew))` (actions.ts:503). -/
def lowerTickDiff (w : ℤ) (skew : ℚ) : ℤ := ⌊((w * 2 : ℤ) : ℚ) * (1 - skew)⌋

/-- The tick range computed during a full rebalance (actions.ts:458-522),
as a function of the safety factor, the ATR, the refreshed pool price, the
two RSI horizons, the refreshed current tick and the tick spacing. -/
def fullRebalanceRange (sf atr price rsi4h rsi15m : ℚ) (t ts : ℤ) : ℤ × ℤ :=
  sanitizeRange ts t
    (lowerTickDiff (rangeWidth atr price sf) (skewOf rsi4h rsi15m))
    (upperTickDiff (rangeWidth atr price sf) (skewOf rsi4h rsi15m))

/-! ### Arithmetic facts about spacing-aligned rounding -/

/-- Rounding down to a multiple of a positive spacing does not increase. -/
theorem floorToSpacing_le (x : ℤ) {ts : ℤ} (hts : 0 < ts) : floorToSpacing x ts ≤ x := by
  have h1 := Int.ediv_add_emod x ts
  have h2 := Int.emod_nonneg x (ne_of_gt hts)
  have h3 : floorToSpacing x ts = ts * (x / ts) := by
    unfold floorToSpacing; ring
  omega

/-- Rounding down to a multiple of a positive spacing loses less than one
spacing unit. -/
theorem lt_floorToSpacing_add (x : ℤ) {ts : ℤ} (hts : 0 < ts) :
    x < floorToSpacing x ts + ts := by
  have h1 := Int.ediv_add_emod x ts
  have h2 := Int.emod_lt_of_pos x hts
  have h3 : floorToSpacing x ts = ts * (x / ts) := by
    unfold floorToSpacing; ring
  omega

/-- The spacing divides its own floor-rounding. -/
theorem dvd_floorToSpacing (x ts : ℤ) : ts ∣ floorToSpacing x ts :=
  dvd_mul_left ts (x / ts)

/-- Rounding up to a multiple of a positive spacing does not decrease. -/
theorem le_ceilToSpacing (x : ℤ) {ts : ℤ} (hts : 0 < ts) : x ≤ ceilToSpacing x ts := by
  have h := floorToSpacing_le (-x) hts
  have h2 : ceilToSpacing x ts = -floorToSpacing (-x) ts := by
    unfold ceilToSpacing floorToSpacing; ring
  omega

/-- The spacing divides its own ceil-rounding. -/
theorem dvd_ceilToSpacing (x ts : ℤ) : ts ∣ ceilToSpacing x ts :=
  Dvd.intro (-(-x / ts)) (mul_comm ts (-(-x / ts)))

/-- The ceil-rounding of the negative tick bound is nonpositive. -/
theorem ceilToSpacing_MIN_nonpos {ts : ℤ} (hts : 0 < ts) :
    ceilToSpacing MIN_TICK ts ≤ 0 := by
  have h : 0 ≤ -MIN_TICK / ts := Int.ediv_nonneg (by norm_num [MIN_TICK]) hts.le
  have : ceilToSpacing MIN_TICK ts = -(-MIN_TICK / ts * ts) := by
    unfold ceilToSpacing; ring
  nlinarith [mul_nonneg h hts.le]

/-- The floor-rounding of the positive tick bound is nonnegative. -/
theorem floorToSpacing_MAX_nonneg {ts : ℤ} (hts : 0 < ts) :
    0 ≤ floorToSpacing MAX_TICK ts := by
  have h : 0 ≤ MAX_TICK / ts := Int.ediv_nonneg (by norm_num [MAX_TICK]) hts.le
  unfold floorToSpacing
  exact mul_nonneg h hts.le

/-- The clamped lower tick is at least the global lower bound, and stays a
multiple of the spacing. -/
theorem clampLower_spec {ts : ℤ} (hts : 0 < ts) (l : ℤ) (hl : ts ∣ l) :
    MIN_TICK ≤ clampLower ts l ∧ ts ∣ clampLower ts l := by
  unfold clampLower
  split_ifs with h
  · exact ⟨le_ceilToSpacing MIN_TICK hts, dvd_ceilToSpacing MIN_TICK ts⟩
  · exact ⟨le_of_not_lt h, hl⟩

/-- The clamped upper tick is at most the global upper bound, and stays a
multiple of the spacing. -/
theorem clampUpper_spec {ts : ℤ} (hts : 0 < ts) (u : ℤ) (hu : ts ∣ u) :
    clampUpper ts u ≤ MAX_TICK ∧ ts ∣ clampUpper ts u := by
  unfold clampUpper
  split_ifs with h
  · exact ⟨floorToSpacing_le MAX_TICK hts, dvd_floorToSpacing MAX_TICK ts⟩
  · exact ⟨le_of_not_lt h, hu⟩

/-- The order-repaired upper tick is strictly above the lower tick and stays
a multiple of the spacing. -/
theorem forceOrder_spec {ts : ℤ} (hts : 0 < ts) (l u : ℤ) (hl : ts ∣ l) (hu : ts ∣ u) :
    l < forceOrder ts l u ∧ ts ∣ forceOrder ts l u := by
  unfold forceOrder
  split_ifs with h
  · exact ⟨by omega, (dvd_add_right hl).mpr dvd_rfl⟩
  · exact ⟨lt_of_not_le h, hu⟩

/-- The final overflow repair yields a well-formed range provided the lower
end respects the lower bound on entry and the spacing is within the global
span: strictly ordered, spacing-aligned, inside the global tick bounds. -/
theorem finalClamp_spec {ts : ℤ} (hts1 : 1 ≤ ts) (hts2 : ts ≤ MAX_TICK)
    (l u : ℤ) (hmin : MIN_TICK ≤ l) (hlu : l < u) (hl : ts ∣ l) (hu : ts ∣ u) :
    MIN_TICK ≤ (finalClamp ts l u).1 ∧ (finalClamp ts l u).1 < (finalClamp ts l u).2 ∧
      (finalClamp ts l u).2 ≤ MAX_TICK ∧
      ts ∣ (finalClamp ts l u).1 ∧ ts ∣ (finalClamp ts l u).2 := by
  have hts : (0:ℤ) < ts := hts1
  have hfle := floorToSpacing_le MAX_TICK hts
  have hfnn := floorToSpacing_MAX_nonneg hts
  have hfdvd := dvd_floorToSpacing MAX_TICK ts
  unfold finalClamp
  split_ifs with h
  · refine ⟨?_, by omega, hfle, dvd_sub hfdvd dvd_rfl, hfdvd⟩
    have : MIN_TICK = -MAX_TICK := by norm_num [MIN_TICK, MAX_TICK]
    omega
  · exact ⟨hmin, hlu, le_of_not_lt h, hl, hu⟩

/-- Combined sanitation property: for any spacing between `1` and `MAX_TICK`,
any current tick and any tick diffs, the sanitized range is strictly ordered,
both ends are multiples of the spacing, and both lie in
`[MIN_TICK, MAX_TICK]`. -/
theorem sanitizeRange_spec (ts t ld ud : ℤ) (hts1 : 1 ≤ ts) (hts2 : ts ≤ MAX_TICK) :
    MIN_TICK ≤ (sanitizeRange ts t ld ud).1 ∧
      (sanitizeRange ts t ld ud).1 < (sanitizeRange ts t ld ud).2 ∧
      (sanitizeRange ts t ld ud).2 ≤ MAX_TICK ∧
      ts ∣ (sanitizeRange ts t ld ud).1 ∧ ts ∣ (sanitizeRange ts t ld ud).2 := by
  have hts : (0:ℤ) < ts := hts1
  have hldvd : ts ∣ tickLowerRaw ts t ld := dvd_floorToSpacing _ ts
  have hudvd : ts ∣ tickUpperRaw ts t ud := dvd_floorToSpacing _ ts
  obtain ⟨hclmin, hcldvd⟩ := clampLower_spec hts (tickLowerRaw ts t ld) hldvd
  obtain ⟨hcumax, hcudvd⟩ := clampUpper_spec hts (tickUpperRaw ts t ud) hudvd
  obtain ⟨hflt, hfdvd⟩ := forceOrder_spec hts _ _ hcldvd hcudvd
  exact finalClamp_spec hts1 hts2 _ _ hclmin hflt hcldvd hfdvd

/-- C3 (amended): for every tick range computed during a full rebalance —
any current tick within the global tick bounds, any positive tick spacing
that does not exceed `MAX_TICK`, and any ATR/RSI inputs — the resulting pair
satisfies `lower < upper`, both ends are integer multiples of the tick
spacing, and both lie within `[MIN_TICK, MAX_TICK] = [-887272, 887272]`. -/
theorem fullRebalanceRange_spec (sf atr price rsi4h rsi15m : ℚ) (t ts : ℤ)
    (hts1 : 0 < ts) (hts2 : ts ≤ MAX_TICK) (htl : MIN_TICK ≤ t) (htu : t ≤ MAX_TICK) :
    (fullRebalanceRange sf atr price rsi4h rsi15m t ts).1 <
        (fullRebalanceRange sf atr price rsi4h rsi15m t ts).2 ∧
      ts ∣ (fullRebalanceRange sf atr price rsi4h rsi15m t ts).1 ∧
      ts ∣ (fullRebalanceRange sf atr price rsi4h rsi15m t ts).2 ∧
      MIN_TICK ≤ (fullRebalanceRange sf atr price rsi4h rsi15m t ts).1 ∧
      (fullRebalanceRange sf atr price rsi4h rsi15m t ts).1 ≤ MAX_TICK ∧
      MIN_TICK ≤ (fullRebalanceRange sf atr price rsi4h rsi15m t ts).2 ∧
      (fullRebalanceRange sf atr price rsi4h rsi15m t ts).2 ≤ MAX_TICK := by
  obtain ⟨h1, h2, h3, h4, h5⟩ :=
    sanitizeRange_spec ts t
      (lowerTickDiff (rangeWidth atr price sf) (skewOf rsi4h rsi15m))
      (upperTickDiff (rangeWidth atr price sf) (skewOf rsi4h rsi15m)) hts1 hts2
  exact ⟨h2, h4, h5, h1, le_trans (le_of_lt h2) h3, le_trans h1 (le_of_lt h2), h3⟩

/-- Witness for C3: the amended range invariant evaluated at the spacing 60
of the configured 0.3% fee tier, tick 0, zero ATR and neutral RSI. -/
theorem fullRebalanceRange_spec_witness :
    (fullRebalanceRange 4 0 1 50 50 0 60).1 < (fullRebalanceRange 4 0 1 50 50 0 60).2 ∧
      (60:ℤ) ∣ (fullRebalanceRange 4 0 1 50 50 0 60).1 ∧
      MIN_TICK ≤ (fullRebalanceRange 4 0 1 50 50 0 60).1 := by
  obtain ⟨h1, h2, h3, h4, h5, h6, h7⟩ :=
    fullRebalanceRange_spec 4 0 1 50 50 0 60 (by norm_num)
      (by norm_num [MAX_TICK]) (by norm_num [MIN_TICK]) (by norm_num [MAX_TICK])
  exact ⟨h1, h2, h4⟩

/-- Counterexample for C3 as stated: with a tick spacing of 1000000 (positive,
as the claim demands, but larger than `MAX_TICK`), current tick 0 (inside the
global bounds), zero ATR and neutral RSI, the sanitized lower tick is
-1000000, strictly below `MIN_TICK`. -/
theorem fullRebalanceRange_out_of_bounds :
    (0:ℤ) < 1000000 ∧ MIN_TICK ≤ (0:ℤ) ∧ (0:ℤ) ≤ MAX_TICK ∧
      (fullRebalanceRange 4 0 1 50 50 0 1000000).1 < MIN_TICK := by
  refine ⟨by norm_num, by norm_num [MIN_TICK], by norm_num [MAX_TICK], ?_⟩
  have h1 : rangeWidth 0 1 4 = 500 := by norm_num [rangeWidth, dynamicWidth, volPercent]
  have h2 : skewOf 50 50 = 1/2 := by norm_num [skewOf, baseSkew]
  have h3 : lowerTickDiff 500 (1/2) = 500 := by norm_num [lowerTickDiff]
  have h4 : upperTickDiff 500 (1/2) = 500 := by norm_num [upperTickDiff]
  have h5 : fullRebalanceRange 4 0 1 50 50 0 1000000 = sanitizeRange 1000000 0 500 500 := by
    unfold fullRebalanceRange
    rw [h1, h2, h3, h4]
  rw [h5]
  decide

/-- C7: the skew is 0.6 when the 4h RSI exceeds 60, 0.4 when it is below 40
and 0.5 otherwise; it is dampened to 0.55 when the base skew is bullish and
the 15m RSI exceeds 70, to 0.45 when the base skew is bearish and the 15m
RSI is below 30, and is left unchanged otherwise; consequently the final
skew always lies within `[0.4, 0.6]`. -/
theorem skew_selection_spec (rsi4h rsi15m : ℚ) :
    (rsi4h > 60 → baseSkew rsi4h = 6/10) ∧
      (rsi4h < 40 → baseSkew rsi4h = 4/10) ∧
      (40 ≤ rsi4h → rsi4h ≤ 60 → baseSkew rsi4h = 5/10) ∧
      (baseSkew rsi4h > 5/10 → rsi15m > 70 → skewOf rsi4h rsi15m = 55/100) ∧
      (baseSkew rsi4h < 5/10 → rsi15m < 30 → skewOf rsi4h rsi15m = 45/100) ∧
      4/10 ≤ skewOf rsi4h rsi15m ∧ skewOf rsi4h rsi15m ≤ 6/10 := by
  unfold skewOf baseSkew
  split_ifs with h1 h2 h3 h4 h5 h6 h7 h8 <;>
    refine ⟨fun ha => ?_, fun hb => ?_, fun hc hd => ?_, fun he hf => ?_, fun hg hh => ?_, ?_, ?_⟩ <;>
    first
      | linarith
      | (norm_num; done)
      | (exact absurd ⟨he, hf⟩ h2)
      | (exact absurd ⟨hg, hh⟩ h6)

/-- Witness for C7: at 4h RSI 65 (bullish) and 15m RSI 75 (overbought), the
base skew 0.6 is dampened to 0.55, which lies inside the band. -/
theorem skew_selection_witness :
    skewOf 65 75 = 55/100 ∧ 4/10 ≤ skewOf 65 75 ∧ baseSkew 65 = 6/10 := by
  obtain ⟨h1, h2, h3, h4, h5, h6, h7⟩ := skew_selection_spec 65 75
  exact ⟨h4 (by norm_num [baseSkew]) (by norm_num), h6, h1 (by norm_num)⟩

/-- C8: the range radius equals
`max(500, min(floor(atr / price * 100 * 100 * safetyFactor), 4000))`;
for zero ATR (and positive price) the width is exactly 500, and for any
ATR at least `2 * price / (5 * safetyFactor)` (so for arbitrarily large
ATR) the width is exactly 4000. -/
theorem rangeWidth_spec (atr price sf : ℚ) :
    rangeWidth atr price sf = max 500 (min ⌊atr / price * 100 * 100 * sf⌋ 4000) ∧
      (atr = 0 → 0 < price → rangeWidth atr price sf = 500) ∧
      (0 < price → 0 < sf → 2 * price / (5 * sf) ≤ atr → rangeWidth atr price sf = 4000) := by
  refine ⟨rfl, fun h0 hp => ?_, fun hp hs hatr => ?_⟩
  · subst h0
    norm_num [rangeWidth, dynamicWidth, volPercent]
  · have hq : (4000:ℚ) ≤ atr / price * 100 * 100 * sf := by
      rw [div_mul_eq_mul_div, div_mul_eq_mul_div, div_mul_eq_mul_div, le_div_iff hp]
      have h2 : 2 * price ≤ atr * (5 * sf) := by
        rw [div_le_iff (by positivity)] at hatr
        linarith
      nlinarith
    have hfloor : (4000:ℤ) ≤ dynamicWidth atr price sf := by
      unfold dynamicWidth volPercent
      exact Int.le_floor.mpr (by push_cast; linarith [hq])
    unfold rangeWidth
    rw [min_eq_right hfloor, max_eq_right (by norm_num)]

/-- Witness for C8: a zero-ATR reading yields the 500-tick floor, and a
large ATR reading yields the 4000-tick ceiling. -/
theorem rangeWidth_witness : rangeWidth 0 2 4 = 500 ∧ rangeWidth 10 1 4 = 4000 :=
  ⟨(rangeWidth_spec 0 2 4).2.1 rfl (by norm_num),
    (rangeWidth_spec 10 1 4).2.2 (by norm_num) (by norm_num) (by norm_num)⟩

/-! ## Atomic exit (src/src/actions.ts, atomicExitPosition lines 72-133) -/

/-- Outcome of the `npm.positions(tokenId)` read at actions.ts:85: it throws
with an Invalid-token-ID reason when the handle was already burned, throws
with some other reason, or returns the position with its liquidity. -/
inductive PosRead
  | invalidTokenId
  | readError
  | ok (liquidity : ℕ)
  deriving DecidableEq

/-- One step of the bundled multicall (actions.ts:96-123). -/
inductive ExitCall
  | decreaseLiquidity
  | collect
  | burn
  deriving DecidableEq

/-- Completion mode of `atomicExitPosition`: normal return or a thrown
error. -/
inductive ExitOutcome
  | success
  | threw
  deriving DecidableEq

/-- The calls bundled into the multicall (actions.ts:99-123): the
decrease-liquidity step only when liquidity is positive, then collect, then
burn. -/
def exitCalls (liquidity : ℕ) : List ExitCall :=
  (if 0 < liquidity then [ExitCall.decreaseLiquidity] else []) ++
    [ExitCall.collect, ExitCall.burn]

/-- Embedding of `atomicExitPosition` (actions.ts:72-133).  The first
component is the completion mode; the second is the multicall submitted
on chain (`none` when no transaction was submitted).  An Invalid-token-ID
read returns success without submitting anything (actions.ts:86-93); any
other read error is rethrown; otherwise the bundle is submitted and a
submission failure is rethrown (actions.ts:125-132). -/
def atomicExitPosition (read : PosRead) (multicallOk : Bool) :
    ExitOutcome × Option (List ExitCall) :=
  match read with
  | PosRead.invalidTokenId => (ExitOutcome.success, none)
  | PosRead.readError => (ExitOutcome.threw, none)
  | PosRead.ok liq =>
      if multicallOk then (ExitOutcome.success, some (exitCalls liq))
      else (ExitOutcome.threw, some (exitCalls liq))

/-- C5: calling the atomic exit on an already-released handle (the position
read fails with Invalid token ID) returns success and submits no on-chain
transaction — and, the function being deterministic in the read outcome,
every repeated call on such a handle does the same; when the handle is valid
with zero liquidity, the submitted bundle is exactly collect followed by
burn, with no decrease-liquidity step. -/
theorem atomicExitPosition_spec :
    (∀ mc : Bool, atomicExitPosition PosRead.invalidTokenId mc =
        (ExitOutcome.success, none)) ∧
      (∀ mc : Bool, (atomicExitPosition (PosRead.ok 0) mc).2 =
        some [ExitCall.collect, ExitCall.burn]) := by
  constructor
  · intro mc; rfl
  · intro mc; cases mc <;> rfl

/-- Witness for C5: both conjuncts evaluated at a concrete multicall
outcome. -/
theorem atomicExitPosition_witness :
    atomicExitPosition PosRead.invalidTokenId true = (ExitOutcome.success, none) ∧
      (atomicExitPosition (PosRead.ok 0) true).2 =
        some [ExitCall.collect, ExitCall.burn] :=
  ⟨atomicExitPosition_spec.1 true, atomicExitPosition_spec.2 true⟩

/-! ## Portfolio rebalance swap (src/src/actions.ts, rebalancePortfolio lines 135-272) -/

/-- Raw-unit threshold of the profit-taking check,
`ethers.parseEther("0.005")` (actions.ts:184). -/
def PROFIT_WETH_FLOOR : ℕ := 5000000000000000

/-- Control-flow outcome of `rebalancePortfolio`: the PROFIT_SECURED throw,
the dust skip, or a swap in one of the two directions (with the raw input
amount). -/
inductive RebalanceOutcome
  | profitSecured
  | skippedDust
  | swapUsdcToWeth (amountIn : ℤ)
  | swapWethToUsdc (amountIn : ℤ)
  deriving DecidableEq

/-- Embedding of `rebalancePortfolio` (actions.ts:135-272).  `price` is the
pool price in raw USDC units per raw WETH unit, so the USDC-denominated
value of the WETH balance is `price * balWETH`; amounts are floors of exact
fractions, as in the SDK's `CurrencyAmount.quotient`.  When the stable asset
is over-held, a recorded prior position plus a near-empty WETH wallet
(below 0.005 WETH) triggers the PROFIT_SECURED throw before the dust check
(actions.ts:183-188); otherwise half the imbalance is sold subject to the
dust threshold.  When WETH is over-held, a quarter of the imbalance value is
sold subject to the WETH dust threshold. -/
def rebalancePortfolio (tokenId : String) (balUSDC balWETH : ℕ) (price : ℚ)
    (thresholdUSDC thresholdWETH : ℕ) : RebalanceOutcome :=
  let wethValueInUsdc : ℚ := price * balWETH
  if (balUSDC : ℚ) > wethValueInUsdc then
    if tokenId ≠ "0" ∧ balWETH < PROFIT_WETH_FLOOR then
      RebalanceOutcome.profitSecured
    else
      let amountToSell : ℤ := ⌊((balUSDC : ℚ) - wethValueInUsdc) / 2⌋
      if amountToSell < (thresholdUSDC : ℤ) then RebalanceOutcome.skippedDust
      else RebalanceOutcome.swapUsdcToWeth amountToSell
  else
    let amountToSell : ℤ := ⌊(wethValueInUsdc - (balUSDC : ℚ)) / 4 / price⌋
    if amountToSell < (thresholdWETH : ℤ) then RebalanceOutcome.skippedDust
    else RebalanceOutcome.swapWethToUsdc amountToSell

/-! ## Control loop block listener (src/index.ts, setupEventListeners lines 180-245) -/

/-- The module-level mutable flags of the control loop
(src/index.ts:39-51). -/
structure LoopState where
  isProcessing : Bool
  isSafeMode : Bool
  lastRunTime : ℤ
  isProfitStandby : Bool
  profitSecuredPrice : ℚ
  deriving DecidableEq

/-- Completion mode of one `onNewBlock` cycle as observed by the block
listener's catch clause: normal return, a throw whose message contains
PROFIT_SECURED, or any other throw. -/
inductive CycleOutcome
  | ok
  | profitSecured
  | genericError
  deriving DecidableEq

/-- The minimum wall-clock interval between dispatched executions,
`const MIN_INTERVAL_MS = 3000` (src/index.ts:51). -/
def MIN_INTERVAL_MS : ℤ := 3000

/-- Embedding of the block listener body (src/index.ts:184-244).  The
effects of `onNewBlock` itself are abstracted into `outcome`; `priceRead`
is the outcome of the `poolContract.slot0()` price fetch performed inside
the PROFIT_SECURED handler (src/index.ts:218-236).  Note the faithful
placement of the throttle check: it runs after `isProcessing` is set and
before the try/finally, so its early return does not restore the flag
(src/index.ts:194-202). -/
def onBlockEvent (s : LoopState) (now : ℤ) (outcome : CycleOutcome)
    (priceRead : Option ℚ) : LoopState :=
  if s.isSafeMode then s
  else if s.isProcessing then s
  else if now - s.lastRunTime < MIN_INTERVAL_MS then
    { s with isProcessing := true }
  else
    match outcome, priceRead with
    | CycleOutcome.profitSecured, some p =>
        { s with isProcessing := false, lastRunTime := now,
                 isProfitStandby := true, profitSecuredPrice := p }
    | CycleOutcome.profitSecured, none =>
        { s with isProcessing := false, lastRunTime := now,
                 isProfitStandby := true }
    | _, _ => { s with isProcessing := false, lastRunTime := now }

/-- The loop state at startup: not processing, not in safe mode, last run
at time 1000. -/
def loopStateAfterFirstRun : LoopState :=
  { isProcessing := false, isSafeMode := false, lastRunTime := 1000,
    isProfitStandby := false, profitSecuredPrice := 0 }

/-- C1 (refuted, code bug): a block event that passes the reentrancy guard
but is skipped by the minimum wall-clock-interval throttle leaves
`isProcessing` stuck at `true` — the throttle's early return sits between
`isProcessing = true` and the try/finally that resets the flag
(src/index.ts:194-202) — and from then on every block event, whatever its
time or outcome, is dropped with the state unchanged. -/
theorem onBlockEvent_throttle_sticks :
    (onBlockEvent loopStateAfterFirstRun 2000 CycleOutcome.ok none).isProcessing = true ∧
      ∀ (now : ℤ) (outcome : CycleOutcome) (pr : Option ℚ),
        onBlockEvent (onBlockEvent loopStateAfterFirstRun 2000 CycleOutcome.ok none)
            now outcome pr =
          onBlockEvent loopStateAfterFirstRun 2000 CycleOutcome.ok none := by
  have hstuck : onBlockEvent loopStateAfterFirstRun 2000 CycleOutcome.ok none =
      { isProcessing := true, isSafeMode := false, lastRunTime := 1000,
        isProfitStandby := false, profitSecuredPrice := 0 } := by
    norm_num [onBlockEvent, loopStateAfterFirstRun, MIN_INTERVAL_MS]
  refine ⟨by rw [hstuck], fun now outcome pr => ?_⟩
  rw [hstuck]
  rfl

/-- C6: with a recorded prior position, an over-held stable asset and a
near-empty WETH wallet, the rebalance swap produces the distinguished
PROFIT_SECURED outcome instead of swapping or returning normally; and the
control loop, on an in-flight cycle ending with that outcome and a
successful price fetch, records the price and sets the standby flag —
while a generic cycle error leaves the standby flag untouched. -/
theorem rebalancePortfolio_profit_secured (tokenId : String) (balUSDC balWETH : ℕ)
    (price : ℚ) (thU thW : ℕ) (s : LoopState) (now : ℤ) (p : ℚ)
    (htok : tokenId ≠ "0") (hover : (balUSDC : ℚ) > price * balWETH)
    (hweth : balWETH < PROFIT_WETH_FLOOR)
    (hsafe : s.isSafeMode = false) (hproc : s.isProcessing = false)
    (hint : MIN_INTERVAL_MS ≤ now - s.lastRunTime) :
    rebalancePortfolio tokenId balUSDC balWETH price thU thW =
        RebalanceOutcome.profitSecured ∧
      (onBlockEvent s now CycleOutcome.profitSecured (some p)).isProfitStandby = true ∧
      (onBlockEvent s now CycleOutcome.profitSecured (some p)).profitSecuredPrice = p ∧
      (onBlockEvent s now CycleOutcome.profitSecured (some p)).isProcessing = false ∧
      (onBlockEvent s now CycleOutcome.genericError (some p)).isProfitStandby =
        s.isProfitStandby := by
  have hout : rebalancePortfolio tokenId balUSDC balWETH price thU thW =
      RebalanceOutcome.profitSecured := by
    unfold rebalancePortfolio
    rw [if_pos hover, if_pos ⟨htok, hweth⟩]
  have hnothrottle : ¬now - s.lastRunTime < MIN_INTERVAL_MS := not_lt.mpr hint
  refine ⟨hout, ?_, ?_, ?_, ?_⟩ <;>
    simp [onBlockEvent, hsafe, hproc, hnothrottle]

/-- Witness for C6: a concrete wallet holding 10000 raw USDC against a
single raw WETH unit priced at one, with a live position handle, and a
concrete loop state past the throttle window. -/
theorem rebalancePortfolio_profit_secured_witness :
    rebalancePortfolio ("42") 10000 1 1 5000000 2000000000000000 =
        RebalanceOutcome.profitSecured ∧
      (onBlockEvent loopStateAfterFirstRun 9000 CycleOutcome.profitSecured
          (some 3500)).isProfitStandby = true ∧
      (onBlockEvent loopStateAfterFirstRun 9000 CycleOutcome.profitSecured
          (some 3500)).profitSecuredPrice = 3500 := by
  obtain ⟨h1, h2, h3, h4, h5⟩ :=
    rebalancePortfolio_profit_secured ("42") 10000 1 1 5000000 2000000000000000
      loopStateAfterFirstRun 9000 3500 (by decide) (by norm_num)
      (by norm_num [PROFIT_WETH_FLOOR]) rfl rfl
      (by norm_num [loopStateAfterFirstRun, MIN_INTERVAL_MS])
  exact ⟨h1, h2, h3⟩

/-! ## Full rebalance sequence (src/src/actions.ts, executeFullRebalance lines 359-538) -/

/-- Subjects of the email alerts sent during the rebalance sequence. -/
inductive AlertTag
  | twapCheckFailed
  | twapCheckError
  | rebalanceSwapFailed
  deriving DecidableEq

/-- Observable effects of one run of `executeFullRebalance`: alerts and the
on-chain or persisted-state mutations — exiting a position, writing the
ledger, submitting the rebalance swap and minting. -/
inductive RebalanceEv
  | alertSent (tag : AlertTag)
  | exitPosition (tokenId : String)
  | ledgerWrite (tokenId : String)
  | swap
  | mint (lower upper : ℤ)
  deriving DecidableEq

/-- Failure modes of `executeFullRebalance`, one per throw site. -/
inductive RebalanceError
  | twapReadFailed
  | manipulation
  | analyticsFailed
  | exitFailed
  | profitSecured
  | swapFailed
  | mintFailed
  deriving DecidableEq

/-- Outcomes of the external calls made by one run of
`executeFullRebalance`, plus the values they return when they succeed.
`twapTick` abstracts `getPoolTwap(poolContract, 300)`, the 300-second
time-weighted-average tick; `balUSDC`, `balWETH` and `poolPrice` feed the
portfolio swap; `freshTick`, `tickSpacing` and `freshPrice` are the
refreshed pool state read after the swap. -/
structure RebalanceEnv where
  twapReadOk : Bool
  twapTick : ℤ
  analyticsOk : Bool
  atr : ℚ
  rsi4h : ℚ
  rsi15m : ℚ
  exitOk : Bool
  balUSDC : ℕ
  balWETH : ℕ
  poolPrice : ℚ
  swapTxOk : Bool
  freshTick : ℤ
  tickSpacing : ℤ
  freshPrice : ℚ
  mintOk : Bool
  newTokenId : String
  deriving DecidableEq

/-- Configured strategy constants consumed by the rebalance sequence:
`ATR_SAFETY_FACTOR`, `REBALANCE_THRESHOLD_USDC` and
`REBALANCE_THRESHOLD_WETH` from src/config.ts. -/
structure RebalanceConfig where
  atrSafetyFactor : ℚ
  thresholdUSDC : ℕ
  thresholdWETH : ℕ
  deriving DecidableEq

/-- The tick-deviation ceiling of the manipulation guard,
`const MAX_TICK_DEVIATION = 200` (actions.ts:381). -/
def MAX_TICK_DEVIATION : ℤ := 200

/-- The mint-and-persist tail of the rebalance sequence
(actions.ts:426-537): refresh the pool, compute the dynamic range, mint at
it, then persist the new handle; a mint failure propagates. -/
def mintStage (cfg : RebalanceConfig) (env : RebalanceEnv)
    (evs : List RebalanceEv) : Except RebalanceError Unit × List RebalanceEv :=
  let lr := fullRebalanceRange cfg.atrSafetyFactor env.atr env.freshPrice
    env.rsi4h env.rsi15m env.freshTick env.tickSpacing
  if env.mintOk then
    (Except.ok (),
      evs ++ [RebalanceEv.mint lr.1 lr.2, RebalanceEv.ledgerWrite env.newTokenId])
  else (Except.error RebalanceError.mintFailed, evs ++ [RebalanceEv.mint lr.1 lr.2])

/-- Embedding of `executeFullRebalance` (actions.ts:359-538) as a staged
sequence returning the completion mode and the trace of its effects.
Stage 0 is the TWAP manipulation guard (actions.ts:366-394): a failed TWAP
read aborts after the catch-clause alert, and a deviation beyond 200 ticks
sends the guard alert, throws, and is re-alerted and rethrown by the same
catch.  Stage 1 fetches the market signals and aborts on failure with the
old position untouched (actions.ts:397-409).  Stage 2 exits the old
position and immediately persists the cleared ledger (actions.ts:412-415).
Stage 3 runs the portfolio swap: a PROFIT_SECURED outcome propagates as its
own failure, a reverted swap transaction is alerted and rethrown
(actions.ts:418-424).  The remaining stages mint and persist. -/
def executeFullRebalance (cfg : RebalanceConfig) (env : RebalanceEnv)
    (spotTick : ℤ) (oldTokenId : String) :
    Except RebalanceError Unit × List RebalanceEv :=
  if env.twapReadOk = false then
    (Except.error RebalanceError.twapReadFailed,
      [RebalanceEv.alertSent AlertTag.twapCheckError])
  else if |spotTick - env.twapTick| > MAX_TICK_DEVIATION then
    (Except.error RebalanceError.manipulation,
      [RebalanceEv.alertSent AlertTag.twapCheckFailed,
        RebalanceEv.alertSent AlertTag.twapCheckError])
  else if env.analyticsOk = false then
    (Except.error RebalanceError.analyticsFailed, [])
  else if oldTokenId ≠ "0" ∧ env.exitOk = false then
    (Except.error RebalanceError.exitFailed, [RebalanceEv.exitPosition oldTokenId])
  else
    let exitEvs := if oldTokenId ≠ "0" then
      [RebalanceEv.exitPosition oldTokenId, RebalanceEv.ledgerWrite ("0")] else []
    match rebalancePortfolio oldTokenId env.balUSDC env.balWETH env.poolPrice
        cfg.thresholdUSDC cfg.thresholdWETH with
    | RebalanceOutcome.profitSecured =>
        (Except.error RebalanceError.profitSecured, exitEvs)
    | RebalanceOutcome.skippedDust => mintStage cfg env exitEvs
    | RebalanceOutcome.swapUsdcToWeth _ =>
        if env.swapTxOk then mintStage cfg env (exitEvs ++ [RebalanceEv.swap])
        else (Except.error RebalanceError.swapFailed,
          exitEvs ++ [RebalanceEv.swap, RebalanceEv.alertSent AlertTag.rebalanceSwapFailed])
    | RebalanceOutcome.swapWethToUsdc _ =>
        if env.swapTxOk then mintStage cfg env (exitEvs ++ [RebalanceEv.swap])
        else (Except.error RebalanceError.swapFailed,
          exitEvs ++ [RebalanceEv.swap, RebalanceEv.alertSent AlertTag.rebalanceSwapFailed])

/-- C4: when the spot tick deviates from the 300-second TWAP tick by more
than 200 ticks, the full rebalance aborts with the manipulation failure and
its whole trace consists of the two alerts of the guard — in particular no
exit, swap, mint or ledger write is issued, so the existing position and
the persisted ledger are untouched. -/
theorem executeFullRebalance_manipulation_guard (cfg : RebalanceConfig)
    (env : RebalanceEnv) (spotTick : ℤ) (oldTokenId : String)
    (hread : env.twapReadOk = true)
    (hdev : |spotTick - env.twapTick| > MAX_TICK_DEVIATION) :
    executeFullRebalance cfg env spotTick oldTokenId =
      (Except.error RebalanceError.manipulation,
        [RebalanceEv.alertSent AlertTag.twapCheckFailed,
          RebalanceEv.alertSent AlertTag.twapCheckError]) := by
  unfold executeFullRebalance
  rw [hread]
  simp [hdev]

/-- Witness for C4: a concrete environment whose spot tick 300 deviates from
the TWAP tick 0 by 300 ticks. -/
theorem executeFullRebalance_manipulation_witness :
    executeFullRebalance ⟨4, 5000000, 2000000000000000⟩
        ⟨true, 0, true, 0, 50, 50, true, 0, 0, 1, true, 0, 60, 1, true, ("7")⟩
        300 ("0") =
      (Except.error RebalanceError.manipulation,
        [RebalanceEv.alertSent AlertTag.twapCheckFailed,
          RebalanceEv.alertSent AlertTag.twapCheckError]) :=
  executeFullRebalance_manipulation_guard ⟨4, 5000000, 2000000000000000⟩
    ⟨true, 0, true, 0, 50, 50, true, 0, 0, 1, true, 0, 60, 1, true, ("7")⟩
    300 ("0") rfl (by norm_num [MAX_TICK_DEVIATION])

/-! ## Hedge manager (src/src/hedge.ts) -/

/-- Subjects of the failure alerts of the panic-exit path. -/
inductive AlertTag2
  | panicCloseLpFailed
  | panicRepayFailed
  | aaveRepayFailed
  deriving DecidableEq

/-- Observable effects of the panic-exit sequence (hedge.ts:211-249).
`alertOk` / `alertFailed` record the outcome of the initial best-effort
alert step; `exitPosition` is the `atomicExitPosition` attempt;
`ledgerReset` is the `saveState("0")` write clearing the persisted position
handle; `swapUsdcToWeth` and `repayAttempt` come from `decreaseShort`;
`procExit` is `process.exit`. -/
inductive PanicEv
  | alertOk
  | alertFailed
  | alertSent (tag : AlertTag2)
  | exitPosition (tokenId : String)
  | ledgerReset
  | debtRead (amount : ℕ)
  | swapUsdcToWeth
  | repayAttempt (forceAll : Bool)
  | procExit (code : ℕ)
  deriving DecidableEq

/-- Outcomes of the external calls made on the panic-exit path, plus the
values returned on success.  `healthReadOk` covers the `getHealthFactor`
retry-read, `exitOk` the atomic exit, `debtReadOk` and `debt` the
`getCurrentEthDebt` read, `balanceReadOk` and `wethBalance` the wallet
balance read inside `decreaseShort`, `swapOk` the USDC-to-WETH deficit swap
and `repayOk` the Aave repay transaction. -/
structure HedgeEnv where
  healthReadOk : Bool
  healthFactor : ℚ
  exitOk : Bool
  debtReadOk : Bool
  debt : ℕ
  balanceReadOk : Bool
  wethBalance : ℕ
  swapOk : Bool
  repayOk : Bool
  deriving DecidableEq

/-- Modelled from the spec: `sendEmailAlert` lives in src/src/utils.ts,
which is not among the sources; per the spec the alerting capability is
best-effort and fire-and-forget and its failure must never abort a cycle,
so it is embedded as an action that always completes, only recording an
event.  The alert-step failures modelled below therefore come from the
reads preceding an alert, not from delivery. -/
def sendEmailAlertEv (tag : AlertTag2) : List PanicEv := [PanicEv.alertSent tag]

/-- Embedding of `decreaseShort` (hedge.ts:152-206).  Returns the events of
the run and whether it completed without throwing.  The wallet balance read
(hedge.ts:162) is the only statement outside a try block, so only its
failure propagates; a failed deficit swap is caught and ends the run before
any repay (hedge.ts:179-188); the repay itself is attempted with
`MaxUint256` when `force` is set, and its failure is caught, alerted
fire-and-forget, and swallowed (hedge.ts:193-205). -/
def decreaseShort (env : HedgeEnv) (amountEth : ℕ) (force : Bool) :
    List PanicEv × Bool :=
  if env.balanceReadOk = false then ([], false)
  else if env.wethBalance < amountEth then
    if env.swapOk then
      ([PanicEv.swapUsdcToWeth, PanicEv.repayAttempt force] ++
        (if env.repayOk then [] else sendEmailAlertEv AlertTag2.aaveRepayFailed), true)
    else ([PanicEv.swapUsdcToWeth], true)
  else
    ([PanicEv.repayAttempt force] ++
      (if env.repayOk then [] else sendEmailAlertEv AlertTag2.aaveRepayFailed), true)

/-- Embedding of `panicExitAll` (hedge.ts:211-249) as the trace of its run.
Step 1 (hedge.ts:215-220): the health read plus initial alert inside a
try/catch — its failure is recorded and swallowed.  Step 2
(hedge.ts:222-233): when a position is recorded (truthy and not the "0"
sentinel), attempt the atomic exit and, on success, immediately reset the
persisted ledger; a failure is caught and alerted.  Step 3
(hedge.ts:235-245): read the outstanding debt and force-repay a nonzero
debt through `decreaseShort`; any throw is caught and alerted.  The
function unconditionally ends with `process.exit(1)` (hedge.ts:248). -/
def panicExitAll (env : HedgeEnv) (lpTokenId : String) : List PanicEv :=
  (if env.healthReadOk then [PanicEv.alertOk] else [PanicEv.alertFailed]) ++
    (if lpTokenId ≠ "" ∧ lpTokenId ≠ "0" then
      if env.exitOk then [PanicEv.exitPosition lpTokenId, PanicEv.ledgerReset]
      else PanicEv.exitPosition lpTokenId :: sendEmailAlertEv AlertTag2.panicCloseLpFailed
    else []) ++
    (if env.debtReadOk then
      PanicEv.debtRead env.debt ::
        (if 0 < env.debt then
          (decreaseShort env env.debt true).1 ++
            (if (decreaseShort env env.debt true).2 then []
             else sendEmailAlertEv AlertTag2.panicRepayFailed)
         else [])
    else sendEmailAlertEv AlertTag2.panicRepayFailed) ++
    [PanicEv.procExit 1]

/-- Result of `checkHealthAndPanic` (hedge.ts:74-93): either the function
returns a boolean, or the process terminates inside `panicExitAll` and the
call never returns. -/
inductive CheckResult
  | returned (safe : Bool)
  | terminated (trace : List PanicEv)
  deriving DecidableEq

/-- Embedding of `checkHealthAndPanic` (hedge.ts:74-93): a failed health
read is caught and reported as safe; a health factor below the critical
floor runs the panic exit, which terminates the process; otherwise the
check returns safe. -/
def checkHealthAndPanic (env : HedgeEnv) (lpTokenId : String)
    (minHealthFactor : ℚ) : CheckResult :=
  if env.healthReadOk then
    if env.healthFactor < minHealthFactor then
      CheckResult.terminated (panicExitAll env lpTokenId)
    else CheckResult.returned true
  else CheckResult.returned true

/-- C2: with a recorded position and nonzero outstanding debt, on the
nominal panic path (exit, debt read and repay path all succeed) the trace
of `panicExitAll` is exactly: the best-effort alert step (which proceeds
whether or not it fails), the position exit, the persisted-ledger reset,
the debt read, the deficit swap when the wallet balance cannot cover the
debt, the forced full repay, and finally process termination — so the
position exit always precedes the repay and the ledger reset always
precedes the repay attempt. -/
theorem panicExitAll_order (env : HedgeEnv) (pid : String)
    (hpid0 : pid ≠ "") (hpid1 : pid ≠ "0") (hdebt : 0 < env.debt)
    (hexit : env.exitOk = true) (hdread : env.debtReadOk = true)
    (hbal : env.balanceReadOk = true)
    (hswap : env.wethBalance < env.debt → env.swapOk = true)
    (hrepay : env.repayOk = true) :
    panicExitAll env pid =
      (if env.healthReadOk then [PanicEv.alertOk] else [PanicEv.alertFailed]) ++
        [PanicEv.exitPosition pid, PanicEv.ledgerReset, PanicEv.debtRead env.debt] ++
        (if env.wethBalance < env.debt then [PanicEv.swapUsdcToWeth] else []) ++
        [PanicEv.repayAttempt true, PanicEv.procExit 1] := by
  unfold panicExitAll decreaseShort
  rw [hexit, hdread, hbal]
  by_cases hcover : env.wethBalance < env.debt
  · rw [hswap hcover]
    simp [hpid0, hpid1, hdebt, hcover, hrepay]
  · simp [hpid0, hpid1, hdebt, hcover, hrepay]

/-- Witness for C2: a concrete environment with position handle 123, debt 5
and wallet balance 10, evaluating the nominal panic trace. -/
theorem panicExitAll_order_witness :
    panicExitAll ⟨true, 1/2, true, true, 5, true, 10, true, true⟩ ("123") =
      [PanicEv.alertOk, PanicEv.exitPosition ("123"), PanicEv.ledgerReset,
        PanicEv.debtRead 5, PanicEv.repayAttempt true, PanicEv.procExit 1] := by
  have h := panicExitAll_order ⟨true, 1/2, true, true, 5, true, 10, true, true⟩
    ("123") (by decide) (by decide) (by norm_num) rfl rfl rfl (by decide) rfl
  simpa using h

/-- C9: when the health-factor read throws, the every-block health check
returns true, so a failed health read by itself never triggers the panic
exit and never aborts the cycle. -/
theorem checkHealthAndPanic_failsafe (env : HedgeEnv) (pid : String)
    (minHF : ℚ) (h : env.healthReadOk = false) :
    checkHealthAndPanic env pid minHF = CheckResult.returned true := by
  unfold checkHealthAndPanic
  rw [h]
  rfl

/-- Witness for C9: a concrete environment whose health read fails. -/
theorem checkHealthAndPanic_failsafe_witness :
    checkHealthAndPanic ⟨false, 0, true, true, 5, true, 10, true, true⟩ ("123") 1 =
      CheckResult.returned true :=
  checkHealthAndPanic_failsafe ⟨false, 0, true, true, 5, true, 10, true, true⟩
    ("123") 1 rfl

/-- C10: whatever the outcomes of the alert, the position exit, the debt
read and the repayment — each failure being caught internally —
`panicExitAll` ends its trace with process termination at exit code 1, and
consequently `checkHealthAndPanic` never returns false: the control loop's
safe-mode-entry branch guarded by a false return (src/index.ts:322-328) is
unreachable. -/
theorem panicExitAll_terminates (env : HedgeEnv) (pid : String) (minHF : ℚ) :
    (∃ pre, panicExitAll env pid = pre ++ [PanicEv.procExit 1]) ∧
      checkHealthAndPanic env pid minHF ≠ CheckResult.returned false := by
  constructor
  · refine ⟨(if env.healthReadOk then [PanicEv.alertOk] else [PanicEv.alertFailed]) ++
      (if pid ≠ "" ∧ pid ≠ "0" then
        if env.exitOk then [PanicEv.exitPosition pid, PanicEv.ledgerReset]
        else PanicEv.exitPosition pid :: sendEmailAlertEv AlertTag2.panicCloseLpFailed
      else []) ++
      (if env.debtReadOk then
        PanicEv.debtRead env.debt ::
          (if 0 < env.debt then
            (decreaseShort env env.debt true).1 ++
              (if (decreaseShort env env.debt true).2 then []
               else sendEmailAlertEv AlertTag2.panicRepayFailed)
           else [])
      else sendEmailAlertEv AlertTag2.panicRepayFailed), ?_⟩
    unfold panicExitAll
    simp [List.append_assoc]
  · unfold checkHealthAndPanic
    split_ifs <;> simp

end UniHedge
